import Mathlib

/-!
# Verification of the go-logger event-dispatch core

A shallow embedding of the diagnostics agent of `devopsmi/go-logger`:
the event flag set, the listener registry with its typed adapters, the
bounded asynchronous dispatch queue, and the orchestrating `Agent`.

Go values of type `interface{}` that travel through the task queue are
modelled by the closed variant type `StateVal`; Go `error` values are
modelled by `Option String` (the message, `none` being the nil error);
a Go runtime panic (nil-pointer dereference, index out of range) is
modelled by the `GoResult.panic` constructor.

Functions are translated from the repository source.  Components of the
repository that are referenced by the source but whose implementation is
not part of the provided source tree (the `EventFlagSet` type, the
`stateAs*` decode helpers, the external `workqueue.Queue`, and Go's
standard-library `fmt` formatting) are modelled from the specification;
each such definition carries a doc comment saying so.
-/

namespace GoLogger

/-- Result of running a piece of Go code: either a normal value or a
runtime panic (nil dereference / index out of range). -/
inductive GoResult (α : Type) where
  | ok (val : α)
  | panic
  deriving DecidableEq, Repr

/-- `EventFlag` is a string-backed category tag (the source casts an
`EventFlag` to `string` when rendering the colored kind label). -/
def EventFlag : Type := String

instance : DecidableEq EventFlag := fun a b => String.decEq a b

instance : Repr EventFlag := inferInstanceAs (Repr String)

/-- The informational event kind. -/
def EventInfo : EventFlag := "info"

/-- The debug event kind. -/
def EventDebug : EventFlag := "debug"

/-- The warning event kind. -/
def EventWarning : EventFlag := "warning"

/-- The error event kind. -/
def EventError : EventFlag := "error"

/-- The fatal-error event kind. -/
def EventFatalError : EventFlag := "fatal"

/-- The request-start event kind. -/
def EventRequest : EventFlag := "web.request"

/-- The request-complete event kind. -/
def EventRequestComplete : EventFlag := "web.request.complete"

/-- The request-body event kind. -/
def EventRequestBody : EventFlag := "web.request.body"

/-- ANSI color codes are opaque strings here. -/
def AnsiColorCode : Type := String

instance : DecidableEq AnsiColorCode := fun a b => String.decEq a b

instance : Repr AnsiColorCode := inferInstanceAs (Repr String)

/-- Color used for info messages. -/
def ColorWhite : AnsiColorCode := "white"

/-- Color used for debug messages. -/
def ColorLightYellow : AnsiColorCode := "lightyellow"

/-- Color used for warning / error / fatal messages. -/
def ColorRed : AnsiColorCode := "red"

/-- An `*http.Request`, reduced to the fields the helpers read. -/
structure HTTPRequest where
  method : String
  path : String
  remoteAddr : String
  deriving DecidableEq, Repr

/-- A Go `interface{}` value as it travels through the dispatch queue:
the closed variant type covering every shape the agent and the example
listeners put into an argument tuple. -/
inductive StateVal where
  /-- A `TimeSource` (logical timestamp). -/
  | timeSource (ts : Nat)
  /-- An `EventFlag`. -/
  | eventFlag (flag : String)
  /-- A non-nil Go `error`, carried by its message. -/
  | err (msg : String)
  /-- An `*http.Request`. -/
  | request (req : HTTPRequest)
  /-- An `int` (status code, content length). -/
  | int (n : Int)
  /-- A `time.Duration` (nanoseconds). -/
  | duration (d : Int)
  /-- A `[]byte`. -/
  | bytes (body : List Nat)
  /-- A `string` (format strings). -/
  | str (s : String)
  /-- An `AnsiColorCode`. -/
  | color (c : String)
  /-- Any other dynamic type. -/
  | other (tag : Nat)
  deriving DecidableEq, Repr

/-- Modelled from the spec: `stateAsTimeSource` decodes an untyped value
to a `TimeSource`, failing gracefully (returning an error, not crashing)
on a type mismatch.  Its implementation is not in the provided sources. -/
def stateAsTimeSource : StateVal → Except String Nat
  | .timeSource ts => .ok ts
  | _ => .error "state is not a time source"

/-- Modelled from the spec: `stateAsEventFlag` decodes an untyped value
to an `EventFlag`, failing gracefully on a type mismatch. -/
def stateAsEventFlag : StateVal → Except String EventFlag
  | .eventFlag f => .ok f
  | _ => .error "state is not an event flag"

/-- Modelled from the spec: `stateAsString` decodes an untyped value to
a `string`, failing gracefully on a type mismatch. -/
def stateAsString : StateVal → Except String String
  | .str s => .ok s
  | _ => .error "state is not a string"

/-- Modelled from the spec: `stateAsAnsiColorCode` decodes an untyped
value to an `AnsiColorCode`, failing gracefully on a type mismatch. -/
def stateAsAnsiColorCode : StateVal → Except String AnsiColorCode
  | .color c => .ok c
  | _ => .error "state is not a color code"

/-- Modelled from the spec: `stateAsRequest` decodes an untyped value to
an `*http.Request`, failing gracefully on a type mismatch. -/
def stateAsRequest : StateVal → Except String HTTPRequest
  | .request r => .ok r
  | _ => .error "state is not a request"

/-- Modelled from the spec: `stateAsInteger` decodes an untyped value to
an `int`, failing gracefully on a type mismatch. -/
def stateAsInteger : StateVal → Except String Int
  | .int n => .ok n
  | _ => .error "state is not an integer"

/-- Modelled from the spec: `stateAsDuration` decodes an untyped value
to a `time.Duration`, failing gracefully on a type mismatch. -/
def stateAsDuration : StateVal → Except String Int
  | .duration d => .ok d
  | _ => .error "state is not a duration"

/-- Modelled from the spec: `stateAsBytes` decodes an untyped value to a
`[]byte`, failing gracefully on a type mismatch. -/
def stateAsBytes : StateVal → Except String (List Nat)
  | .bytes b => .ok b
  | _ => .error "state is not a byte slice"

/-- Rendering of a single argument by a `%d`, `%s` or `%v` verb. -/
def renderVal : StateVal → String
  | .timeSource ts => toString ts
  | .eventFlag f => f
  | .err m => m
  | .request r => r.method ++ " " ++ r.path
  | .int n => toString n
  | .duration d => toString d
  | .bytes b => toString b
  | .str s => s
  | .color c => c
  | .other t => toString t

/-- Modelled from the spec: Go standard-library `fmt` formatting as used
by `fmt.Errorf` / `fmt.Sprintf` (external to this repository).  The verbs
`%d`, `%s`, `%v` each consume one argument; `%%` renders a literal
percent sign; other characters are copied. -/
def sprintfAux : List Char → List StateVal → List Char
  | [], _ => []
  | '%' :: '%' :: rest, args => '%' :: sprintfAux rest args
  | '%' :: 'd' :: rest, args =>
      (renderVal (args.headD (.other 0))).toList ++ sprintfAux rest args.tail
  | '%' :: 's' :: rest, args =>
      (renderVal (args.headD (.other 0))).toList ++ sprintfAux rest args.tail
  | '%' :: 'v' :: rest, args =>
      (renderVal (args.headD (.other 0))).toList ++ sprintfAux rest args.tail
  | c :: rest, args => c :: sprintfAux rest args

/-- Modelled from the spec: `fmt.Sprintf`/`fmt.Errorf` message
construction (the error returned by `fmt.Errorf` is never nil and its
message is the format string with the arguments formatted in). -/
def sprintf (format : String) (args : List StateVal) : String :=
  String.mk (sprintfAux format.toList args)

/-- Modelled from the spec: `EventFlagSet` is a set over event kinds with
named combinations "all" and "none"; its implementation is not in the
provided sources.  `flags` is the set of individually enabled kinds and
`all` the "all" combination. -/
structure EventFlagSet where
  all : Bool
  flags : List EventFlag
  deriving DecidableEq, Repr

namespace EventFlagSet

/-- Modelled from the spec: the "none" flag set (nothing enabled). -/
def NewEventFlagSetNone : EventFlagSet := { all := false, flags := [] }

/-- Modelled from the spec: the "all" flag set (everything enabled). -/
def NewEventFlagSetAll : EventFlagSet := { all := true, flags := [] }

/-- Modelled from the spec: a flag set from an explicit list of kinds. -/
def NewEventFlagSetWithEvents (events : List EventFlag) : EventFlagSet :=
  { all := false, flags := events }

/-- Modelled from the spec: `Enable` adds a kind to the set
(idempotent). -/
def Enable (s : EventFlagSet) (flag : EventFlag) : EventFlagSet :=
  if flag ∈ s.flags then s else { s with flags := flag :: s.flags }

/-- Modelled from the spec: `Disable` removes a kind from the set. -/
def Disable (s : EventFlagSet) (flag : EventFlag) : EventFlagSet :=
  { s with all := false, flags := s.flags.filter (fun f => f ≠ flag) }

/-- Modelled from the spec: `IsEnabled` on a nil/absent set returns
`false` rather than failing; otherwise membership in the set. -/
def IsEnabled (s : Option EventFlagSet) (flag : EventFlag) : Bool :=
  match s with
  | none => false
  | some s => s.all || s.flags.contains flag

end EventFlagSet

/-- Outcome of invoking a typed adapter's generic listener on an
argument tuple: the strongly-typed callback is invoked with the decoded
arguments, or the call is silently dropped, or the listener panics (a Go
runtime index-out-of-range). -/
inductive AdapterOutcome (α : Type) where
  | invoked (args : α)
  | dropped
  | panicked
  deriving DecidableEq, Repr

/-- `NewErrorListener` (events.go): the generic listener it returns
invokes the wrapped `ErrorListener` with `state[0]` when the tuple is
non-empty and `state[0]` type-asserts to `error`; otherwise it drops the
call.  The decoded argument is the error (by its message). -/
def NewErrorListener (state : List StateVal) : AdapterOutcome String :=
  match state with
  | .err msg :: _ => .invoked msg
  | _ :: _ => .dropped
  | [] => .dropped

/-- `NewRequestStartListener` (events.go): invokes the wrapped
`RequestStartListener` with `state[0]` when the tuple is non-empty and
`state[0]` type-asserts to `*http.Request`; otherwise drops. -/
def NewRequestStartListener (state : List StateVal) : AdapterOutcome HTTPRequest :=
  match state with
  | .request req :: _ => .invoked req
  | _ :: _ => .dropped
  | [] => .dropped

/-- `NewRequestListener` (events.go): guards `len(state) < 3`, then
decodes `state[0]` as a request, `state[1]` and `state[2]` as integers
and `state[3]` as a duration, returning (dropping) on any decode error.
The source indexes `state[3]` although the guard only ensured a length of
at least 3, so a three-element tuple whose first three entries decode
successfully reaches an out-of-range index: a Go panic. -/
def NewRequestListener (state : List StateVal) :
    AdapterOutcome (HTTPRequest × Int × Int × Int) :=
  if state.length < 3 then .dropped
  else
    match state.get? 0 with
    | none => .panicked
    | some v0 =>
      match stateAsRequest v0 with
      | .error _ => .dropped
      | .ok req =>
        match state.get? 1 with
        | none => .panicked
        | some v1 =>
          match stateAsInteger v1 with
          | .error _ => .dropped
          | .ok statusCode =>
            match state.get? 2 with
            | none => .panicked
            | some v2 =>
              match stateAsInteger v2 with
              | .error _ => .dropped
              | .ok contentLengthBytes =>
                match state.get? 3 with
                | none => .panicked
                | some v3 =>
                  match stateAsDuration v3 with
                  | .error _ => .dropped
                  | .ok elapsed =>
                    .invoked (req, statusCode, contentLengthBytes, elapsed)

/-- `NewRequestBodyListener` (events.go): guards `len(state) < 1`, then
decodes `state[0]` as a byte slice, dropping on decode error. -/
def NewRequestBodyListener (state : List StateVal) : AdapterOutcome (List Nat) :=
  if state.length < 1 then .dropped
  else
    match state.get? 0 with
    | none => .panicked
    | some v0 =>
      match stateAsBytes v0 with
      | .error _ => .dropped
      | .ok body => .invoked body

/-- `NewResponseListener` (events.go): identical decode shape to
`NewRequestBodyListener`. -/
def NewResponseListener (state : List StateVal) : AdapterOutcome (List Nat) :=
  if state.length < 1 then .dropped
  else
    match state.get? 0 with
    | none => .panicked
    | some v0 =>
      match stateAsBytes v0 with
      | .error _ => .dropped
      | .ok body => .invoked body

/-- An entry of the listener registry: either one of the typed adapters
(wrapping a strongly-typed callback identified by `id`) or an arbitrary
generic `EventListener` function (identified by `id`). -/
inductive EventListener where
  | errorListener (id : Nat)
  | requestStartListener (id : Nat)
  | requestListener (id : Nat)
  | requestBodyListener (id : Nat)
  | responseListener (id : Nat)
  | generic (id : Nat)
  deriving DecidableEq, Repr

/-- A record of one callback actually receiving a call, with the values
it was passed. -/
inductive Invocation where
  /-- A generic listener called with the raw tuple. -/
  | raw (id : Nat) (writer : Nat) (ts : Nat) (flag : EventFlag) (state : List StateVal)
  /-- An `ErrorListener` callback called with a decoded error. -/
  | errorCb (id : Nat) (writer : Nat) (ts : Nat) (msg : String)
  /-- A `RequestStartListener` callback called with a decoded request. -/
  | requestStartCb (id : Nat) (writer : Nat) (ts : Nat) (req : HTTPRequest)
  /-- A `RequestListener` callback called with decoded request, status
  code, content length and elapsed duration. -/
  | requestCb (id : Nat) (writer : Nat) (ts : Nat) (req : HTTPRequest)
      (statusCode : Int) (contentLengthBytes : Int) (elapsed : Int)
  /-- A `RequestBodyListener`/`ResponseListener` callback called with a
  decoded byte slice. -/
  | bytesCb (id : Nat) (writer : Nat) (ts : Nat) (body : List Nat)
  deriving DecidableEq, Repr

/-- Invoking one registered generic listener with
`(writer, ts, flag, state...)`: a generic listener records the raw call;
a typed adapter decodes the tuple and either records the wrapped
callback's invocation, records nothing (silent drop), or panics. -/
def invokeListener (writer ts : Nat) (flag : EventFlag) (state : List StateVal) :
    EventListener → GoResult (List Invocation)
  | .errorListener id =>
    match NewErrorListener state with
    | .invoked msg => .ok [.errorCb id writer ts msg]
    | .dropped => .ok []
    | .panicked => .panic
  | .requestStartListener id =>
    match NewRequestStartListener state with
    | .invoked req => .ok [.requestStartCb id writer ts req]
    | .dropped => .ok []
    | .panicked => .panic
  | .requestListener id =>
    match NewRequestListener state with
    | .invoked (req, sc, cl, el) => .ok [.requestCb id writer ts req sc cl el]
    | .dropped => .ok []
    | .panicked => .panic
  | .requestBodyListener id =>
    match NewRequestBodyListener state with
    | .invoked body => .ok [.bytesCb id writer ts body]
    | .dropped => .ok []
    | .panicked => .panic
  | .responseListener id =>
    match NewResponseListener state with
    | .invoked body => .ok [.bytesCb id writer ts body]
    | .dropped => .ok []
    | .panicked => .panic
  | .generic id => .ok [.raw id writer ts flag state]

/-- The listener registry contents: Go's
`map[EventFlag][]EventListener` as an association list. -/
def ListenerRegistry : Type := List (EventFlag × List EventListener)

instance : DecidableEq ListenerRegistry :=
  inferInstanceAs (DecidableEq (List (EventFlag × List EventListener)))

instance : Repr ListenerRegistry :=
  inferInstanceAs (Repr (List (EventFlag × List EventListener)))

/-- Go map lookup `m[flag]`: a missing key yields the nil slice `[]`. -/
def lookupListeners (reg : ListenerRegistry) (flag : EventFlag) : List EventListener :=
  match reg.find? (fun p => p.1 = flag) with
  | some p => p.2
  | none => []

/-- Go `m[flag] = append(m[flag], l)`. -/
def registryAppend (reg : ListenerRegistry) (flag : EventFlag) (l : EventListener) :
    ListenerRegistry :=
  match reg with
  | [] => [(flag, [l])]
  | (f, ls) :: rest =>
    if f = flag then (f, ls ++ [l]) :: rest
    else (f, ls) :: registryAppend rest flag l

/-- Go `delete(m, flag)`. -/
def registryDelete (reg : ListenerRegistry) (flag : EventFlag) : ListenerRegistry :=
  reg.filter (fun p => p.1 ≠ flag)

/-- A unit of asynchronous work sitting in the dispatch queue: the
action pointer the agent enqueued (`da.write`, `da.writeError`, or
`da.triggerListeners`) together with its captured argument tuple. -/
inductive Task where
  | write (args : List StateVal)
  | writeError (args : List StateVal)
  | trigger (args : List StateVal)
  deriving DecidableEq, Repr

/-- Modelled from the spec: the external `workqueue.Queue` — a bounded
FIFO of pending tasks consumed by a fixed worker pool.  `pending` holds
the enqueued-but-not-executed tasks, `executed` the tasks the workers
have run, `closed` whether `Close` has been called. -/
structure Queue where
  pending : List Task
  executed : List Task
  closed : Bool
  deriving DecidableEq, Repr

namespace Queue

/-- Modelled from the spec: `Enqueue` appends to the bounded buffer
(blocking, never dropping, when at capacity) and fails — leaving the
buffer unchanged — only when the queue has already been closed.  The
agent discards `Enqueue`'s error everywhere. -/
def Enqueue (q : Queue) (t : Task) : Queue :=
  if q.closed then q else { q with pending := q.pending ++ [t] }

/-- Modelled from the spec: `Len` is the number of pending tasks. -/
def Len (q : Queue) : Nat := q.pending.length

/-- Modelled from the spec: the workers consuming every currently
pending task (the state in which `Len` reaches 0). -/
def runAllPending (q : Queue) : Queue :=
  { q with pending := [], executed := q.executed ++ q.pending }

/-- Modelled from the spec: `Close` stops accepting new tasks and stops
the workers after the currently-buffered tasks are drained; double close
is a no-op returning nil. -/
def Close (q : Queue) : Queue :=
  { pending := [], executed := q.executed ++ q.pending, closed := true }

end Queue

/-- The diagnostics `Agent`: owns the flag set (`events`, a possibly-nil
`*EventFlagSet`), the listener registry, the dispatch queue and a
reference to the external writer (opaque, identified by a number).
`clock` is the logical time `TimeNow()` returns at the next call. -/
structure Agent where
  writer : Nat
  events : Option EventFlagSet
  eventListeners : ListenerRegistry
  eventQueue : Queue
  clock : Nat
  deriving DecidableEq, Repr

/-- `Agent.SetVerbosity` sets the agent verbosity synchronously.  The
assignment `da.events = events` dereferences the receiver, so a nil
receiver panics. -/
def Agent.SetVerbosity (da : Option Agent) (events : Option EventFlagSet) :
    GoResult Agent :=
  match da with
  | none => .panic
  | some a => .ok { a with events := events }

/-- `Agent.EnableEvent` flips the bit flag for a given event via
`da.events.Enable`: reading `da.events` on a nil receiver panics, and so
does `Enable` on a nil flag set. -/
def Agent.EnableEvent (da : Option Agent) (flag : EventFlag) : GoResult Agent :=
  match da with
  | none => .panic
  | some a =>
    match a.events with
    | none => .panic
    | some s => .ok { a with events := some (s.Enable flag) }

/-- `Agent.DisableEvent` flips the bit flag for a given event via
`da.events.Disable`; nil receiver (or nil flag set) panics. -/
def Agent.DisableEvent (da : Option Agent) (flag : EventFlag) : GoResult Agent :=
  match da with
  | none => .panic
  | some a =>
    match a.events with
    | none => .panic
    | some s => .ok { a with events := some (s.Disable flag) }

/-- `Agent.IsEnabled` asserts if a flag value is set: explicitly
nil-receiver-guarded (`if da == nil return false`), then defers to the
flag set's nil-safe `IsEnabled`. -/
def Agent.IsEnabled (da : Option Agent) (flag : EventFlag) : Bool :=
  match da with
  | none => false
  | some a => EventFlagSet.IsEnabled a.events flag

/-- `Agent.HasListener` returns whether listeners are registered for an
event: explicitly nil-receiver-guarded, then `len(listeners) > 0` with a
missing map entry counting as empty. -/
def Agent.HasListener (da : Option Agent) (flag : EventFlag) : Bool :=
  match da with
  | none => false
  | some a => (lookupListeners a.eventListeners flag).length > 0

/-- `Agent.AddEventListener` appends a listener for an event flag under
`eventListenersLock`.  Taking the lock field of a nil receiver panics. -/
def Agent.AddEventListener (da : Option Agent) (flag : EventFlag)
    (listener : EventListener) : GoResult Agent :=
  match da with
  | none => .panic
  | some a => .ok { a with eventListeners := registryAppend a.eventListeners flag listener }

/-- `Agent.RemoveListeners` clears all listeners for an event flag via
`delete(da.eventListeners, eventFlag)` (no lock taken).  Reading the map
field of a nil receiver panics. -/
def Agent.RemoveListeners (da : Option Agent) (flag : EventFlag) : GoResult Agent :=
  match da with
  | none => .panic
  | some a => .ok { a with eventListeners := registryDelete a.eventListeners flag }

/-- `Agent.OnEvent`: explicitly nil-receiver-guarded; when the flag is
enabled and has listeners, enqueues a listener-trigger task capturing
`(TimeNow(), eventFlag, state...)`. -/
def Agent.OnEvent (da : Option Agent) (flag : EventFlag) (state : List StateVal) :
    Option Agent :=
  match da with
  | none => none
  | some a =>
    if Agent.IsEnabled (some a) flag && Agent.HasListener (some a) flag then
      some { a with eventQueue := a.eventQueue.Enqueue (.trigger ([.timeSource a.clock, .eventFlag flag] ++ state)) }
    else some a

/-- `Agent.queueWrite` enqueues a standard-stream write task
`(TimeNow(), eventFlag, color, format, args...)` when the format string
is non-empty.  Internal; only reached through a non-nil receiver. -/
def Agent.queueWrite (a : Agent) (flag : EventFlag) (color : AnsiColorCode)
    (format : String) (args : List StateVal) : Agent :=
  if format.length > 0 then
    { a with eventQueue := a.eventQueue.Enqueue (.write ([.timeSource a.clock, .eventFlag flag, .color color, .str format] ++ args)) }
  else a

/-- `Agent.queueWriteError` enqueues an error-stream write task when the
format string is non-empty. -/
def Agent.queueWriteError (a : Agent) (flag : EventFlag) (color : AnsiColorCode)
    (format : String) (args : List StateVal) : Agent :=
  if format.length > 0 then
    { a with eventQueue := a.eventQueue.Enqueue (.writeError ([.timeSource a.clock, .eventFlag flag, .color color, .str format] ++ args)) }
  else a

/-- `Agent.Infof`: if `EventInfo` is enabled, queue a write task and —
independently, if listeners exist — a listener-trigger task capturing
`(TimeNow(), EventInfo, format, args...)`.  A nil receiver reaches no
dereference because `IsEnabled` on nil is false. -/
def Agent.Infof (da : Option Agent) (format : String) (args : List StateVal) :
    Option Agent :=
  match da with
  | none => none
  | some a =>
    if Agent.IsEnabled (some a) EventInfo then
      let a1 := Agent.queueWrite a EventInfo ColorWhite format args
      if Agent.HasListener (some a1) EventInfo then
        some { a1 with eventQueue := a1.eventQueue.Enqueue (.trigger ([.timeSource a1.clock, .eventFlag EventInfo, .str format] ++ args)) }
      else some a1
    else some a

/-- `Agent.Debugf`: same shape as `Infof` for `EventDebug` with the
light-yellow label color. -/
def Agent.Debugf (da : Option Agent) (format : String) (args : List StateVal) :
    Option Agent :=
  match da with
  | none => none
  | some a =>
    if Agent.IsEnabled (some a) EventDebug then
      let a1 := Agent.queueWrite a EventDebug ColorLightYellow format args
      if Agent.HasListener (some a1) EventDebug then
        some { a1 with eventQueue := a1.eventQueue.Enqueue (.trigger ([.timeSource a1.clock, .eventFlag EventDebug, .str format] ++ args)) }
      else some a1
    else some a

/-- `Agent.Warningf` constructs `err := fmt.Errorf(format, args...)`
first, conditionally queues an error-stream write task and a
listener-trigger task `(TimeNow(), EventWarning, err)`, and always
returns `err`. -/
def Agent.Warningf (da : Option Agent) (format : String) (args : List StateVal) :
    Option String × Option Agent :=
  let e := sprintf format args
  match da with
  | none => (some e, none)
  | some a =>
    if Agent.IsEnabled (some a) EventWarning then
      let a1 := Agent.queueWriteError a EventWarning ColorRed format args
      if Agent.HasListener (some a1) EventWarning then
        (some e, some { a1 with eventQueue := a1.eventQueue.Enqueue (.trigger [.timeSource a1.clock, .eventFlag EventWarning, .err e]) })
      else (some e, some a1)
    else (some e, some a)

/-- `Agent.Warning`: a nil error short-circuits (no task, returns nil);
otherwise conditionally queues an error-stream write of
`fmt.Sprintf("%+v", err)` and a listener-trigger task, and returns the
error unchanged. -/
def Agent.Warning (da : Option Agent) (e : Option String) :
    Option String × Option Agent :=
  match e with
  | none => (none, da)
  | some msg =>
    match da with
    | none => (some msg, none)
    | some a =>
      if Agent.IsEnabled (some a) EventWarning then
        let a1 := Agent.queueWriteError a EventWarning ColorRed msg []
        if Agent.HasListener (some a1) EventWarning then
          (some msg, some { a1 with eventQueue := a1.eventQueue.Enqueue (.trigger [.timeSource a1.clock, .eventFlag EventWarning, .err msg]) })
        else (some msg, some a1)
      else (some msg, some a)

/-- `Agent.WarningWithReq`: like `Warning` but the trigger task also
captures the request. -/
def Agent.WarningWithReq (da : Option Agent) (e : Option String) (req : HTTPRequest) :
    Option String × Option Agent :=
  match e with
  | none => (none, da)
  | some msg =>
    match da with
    | none => (some msg, none)
    | some a =>
      if Agent.IsEnabled (some a) EventWarning then
        let a1 := Agent.queueWriteError a EventWarning ColorRed msg []
        if Agent.HasListener (some a1) EventWarning then
          (some msg, some { a1 with eventQueue := a1.eventQueue.Enqueue (.trigger [.timeSource a1.clock, .eventFlag EventWarning, .err msg, .request req]) })
        else (some msg, some a1)
      else (some msg, some a)

/-- `Agent.Errorf`: same shape as `Warningf` for `EventError`. -/
def Agent.Errorf (da : Option Agent) (format : String) (args : List StateVal) :
    Option String × Option Agent :=
  let e := sprintf format args
  match da with
  | none => (some e, none)
  | some a =>
    if Agent.IsEnabled (some a) EventError then
      let a1 := Agent.queueWriteError a EventError ColorRed format args
      if Agent.HasListener (some a1) EventError then
        (some e, some { a1 with eventQueue := a1.eventQueue.Enqueue (.trigger [.timeSource a1.clock, .eventFlag EventError, .err e]) })
      else (some e, some a1)
    else (some e, some a)

/-- `Agent.Error`: same shape as `Warning` for `EventError`. -/
def Agent.Error (da : Option Agent) (e : Option String) :
    Option String × Option Agent :=
  match e with
  | none => (none, da)
  | some msg =>
    match da with
    | none => (some msg, none)
    | some a =>
      if Agent.IsEnabled (some a) EventError then
        let a1 := Agent.queueWriteError a EventError ColorRed msg []
        if Agent.HasListener (some a1) EventError then
          (some msg, some { a1 with eventQueue := a1.eventQueue.Enqueue (.trigger [.timeSource a1.clock, .eventFlag EventError, .err msg]) })
        else (some msg, some a1)
      else (some msg, some a)

/-- `Agent.ErrorWithReq`: like `Error` but the trigger task also
captures the request. -/
def Agent.ErrorWithReq (da : Option Agent) (e : Option String) (req : HTTPRequest) :
    Option String × Option Agent :=
  match e with
  | none => (none, da)
  | some msg =>
    match da with
    | none => (some msg, none)
    | some a =>
      if Agent.IsEnabled (some a) EventError then
        let a1 := Agent.queueWriteError a EventError ColorRed msg []
        if Agent.HasListener (some a1) EventError then
          (some msg, some { a1 with eventQueue := a1.eventQueue.Enqueue (.trigger [.timeSource a1.clock, .eventFlag EventError, .err msg, .request req]) })
        else (some msg, some a1)
      else (some msg, some a)

/-- `Agent.Fatalf`: same shape as `Warningf` for `EventFatalError`. -/
def Agent.Fatalf (da : Option Agent) (format : String) (args : List StateVal) :
    Option String × Option Agent :=
  let e := sprintf format args
  match da with
  | none => (some e, none)
  | some a =>
    if Agent.IsEnabled (some a) EventFatalError then
      let a1 := Agent.queueWriteError a EventFatalError ColorRed format args
      if Agent.HasListener (some a1) EventFatalError then
        (some e, some { a1 with eventQueue := a1.eventQueue.Enqueue (.trigger [.timeSource a1.clock, .eventFlag EventFatalError, .err e]) })
      else (some e, some a1)
    else (some e, some a)

/-- `Agent.Fatal`: same shape as `Warning` for `EventFatalError`. -/
def Agent.Fatal (da : Option Agent) (e : Option String) :
    Option String × Option Agent :=
  match e with
  | none => (none, da)
  | some msg =>
    match da with
    | none => (some msg, none)
    | some a =>
      if Agent.IsEnabled (some a) EventFatalError then
        let a1 := Agent.queueWriteError a EventFatalError ColorRed msg []
        if Agent.HasListener (some a1) EventFatalError then
          (some msg, some { a1 with eventQueue := a1.eventQueue.Enqueue (.trigger [.timeSource a1.clock, .eventFlag EventFatalError, .err msg]) })
        else (some msg, some a1)
      else (some msg, some a)

/-- `Agent.FatalWithReq`: like `Fatal` but the trigger task also
captures the request. -/
def Agent.FatalWithReq (da : Option Agent) (e : Option String) (req : HTTPRequest) :
    Option String × Option Agent :=
  match e with
  | none => (none, da)
  | some msg =>
    match da with
    | none => (some msg, none)
    | some a =>
      if Agent.IsEnabled (some a) EventFatalError then
        let a1 := Agent.queueWriteError a EventFatalError ColorRed msg []
        if Agent.HasListener (some a1) EventFatalError then
          (some msg, some { a1 with eventQueue := a1.eventQueue.Enqueue (.trigger [.timeSource a1.clock, .eventFlag EventFatalError, .err msg, .request req]) })
        else (some msg, some a1)
      else (some msg, some a)

/-- `Agent.Close` closes the dispatch queue via `da.eventQueue.Close()`;
reading the queue field of a nil receiver panics.  The queue's close
error is always nil here (double close is a no-op returning nil). -/
def Agent.Close (da : Option Agent) : GoResult Agent :=
  match da with
  | none => .panic
  | some a => .ok { a with eventQueue := a.eventQueue.Close }

/-- `Agent.Drain` sets the verbosity to the "none" flag set, busy-polls
`Len() > 0` with a short sleep until the workers have consumed every
pending task, then closes.  The initial `SetVerbosity` call panics on a
nil receiver. -/
def Agent.Drain (da : Option Agent) : GoResult Agent :=
  match Agent.SetVerbosity da (some EventFlagSet.NewEventFlagSetNone) with
  | .panic => .panic
  | .ok a1 =>
    let a2 := { a1 with eventQueue := a1.eventQueue.runAllPending }
    Agent.Close (some a2)

/-- The `for` loop of `triggerListeners`: invokes each listener of the
snapshot in order; a Go panic inside a listener propagates and aborts the
remaining iterations. -/
def Agent.runListeners (writer ts : Nat) (flag : EventFlag) (state : List StateVal) :
    List EventListener → GoResult (List Invocation)
  | [] => .ok []
  | l :: rest =>
    match invokeListener writer ts flag state l with
    | .panic => .panic
    | .ok invs =>
      match Agent.runListeners writer ts flag state rest with
      | .panic => .panic
      | .ok more => .ok (invs ++ more)

/-- `Agent.triggerListeners`: returns nil for a short tuple; decodes
`actionState[0]` as the time source and `actionState[1]` as the event
flag (returning the decode error on failure); reads the listener slice
for the flag under the registry lock; then invokes each listener of that
snapshot with `(writer, ts, flag, actionState[2:]...)`. -/
def Agent.triggerListeners (a : Agent) (actionState : List StateVal) :
    GoResult (Option String × List Invocation) :=
  if actionState.length < 2 then .ok (none, [])
  else
    match stateAsTimeSource (actionState.getD 0 (.other 0)) with
    | .error e => .ok (some e, [])
    | .ok ts =>
      match stateAsEventFlag (actionState.getD 1 (.other 0)) with
      | .error e => .ok (some e, [])
      | .ok flag =>
        let listeners := lookupListeners a.eventListeners flag
        match Agent.runListeners a.writer ts flag (actionState.drop 2) listeners with
        | .panic => .panic
        | .ok invs => .ok (none, invs)

/-- A primitive action on the shared listener registry, for auditing the
locking structure of the source functions that touch it. -/
inductive RegistryStep where
  /-- `eventListenersLock.Lock()`. -/
  | lock
  /-- `eventListenersLock.Unlock()`. -/
  | unlock
  /-- A write to the `eventListeners` map. -/
  | mutateRegistry
  /-- A read of a kind's listener slice from the `eventListeners` map. -/
  | readRegistry
  deriving DecidableEq, Repr

/-- Checks, given the current lock depth, that every registry mutation
and registry read in the step sequence happens while the lock is held. -/
def lockHeldOk : Nat → List RegistryStep → Bool
  | _, [] => true
  | depth, .lock :: rest => lockHeldOk (depth + 1) rest
  | depth, .unlock :: rest => lockHeldOk (depth - 1) rest
  | depth, .mutateRegistry :: rest => decide (0 < depth) && lockHeldOk depth rest
  | depth, .readRegistry :: rest => decide (0 < depth) && lockHeldOk depth rest

/-- A step sequence is lock-disciplined when every registry access in it
occurs under the registry-wide lock. -/
def registryLockDisciplined (steps : List RegistryStep) : Bool :=
  lockHeldOk 0 steps

/-- The registry actions of `Agent.AddEventListener`, in source order:
`Lock()`, append to the map entry, `Unlock()`. -/
def addEventListenerRegistrySteps : List RegistryStep :=
  [.lock, .mutateRegistry, .unlock]

/-- The registry actions of `Agent.RemoveListeners`, in source order:
a bare `delete(da.eventListeners, eventFlag)` with no lock taken. -/
def removeListenersRegistrySteps : List RegistryStep :=
  [.mutateRegistry]

/-- The registry actions of `Agent.triggerListeners`, in source order:
`Lock()`, read the kind's listener slice into a local snapshot,
`Unlock()` (the iteration then walks the snapshot, not the map). -/
def triggerListenersRegistrySteps : List RegistryStep :=
  [.lock, .readRegistry, .unlock]

/-- Is a task a write task (standard or error stream)? -/
def Task.isWriteTask : Task → Bool
  | .write _ => true
  | .writeError _ => true
  | .trigger _ => false

/-- The write tasks pending in an agent's queue (`none` is the nil
agent, which has no queue). -/
def writeTasks (da : Option Agent) : List Task :=
  match da with
  | none => []
  | some a => a.eventQueue.pending.filter Task.isWriteTask

/-- A concrete request reused by the concrete scenarios below. -/
def sampleRequest : HTTPRequest :=
  { method := "GET", path := "/index", remoteAddr := "127.0.0.1" }

theorem warningf_fst (da : Option Agent) (format : String) (args : List StateVal) :
    (Agent.Warningf da format args).1 = some (sprintf format args) := by
  cases da with
  | none => rfl
  | some a =>
    simp only [Agent.Warningf]
    split <;> first | rfl | (split <;> rfl)

theorem errorf_fst (da : Option Agent) (format : String) (args : List StateVal) :
    (Agent.Errorf da format args).1 = some (sprintf format args) := by
  cases da with
  | none => rfl
  | some a =>
    simp only [Agent.Errorf]
    split <;> first | rfl | (split <;> rfl)

theorem fatalf_fst (da : Option Agent) (format : String) (args : List StateVal) :
    (Agent.Fatalf da format args).1 = some (sprintf format args) := by
  cases da with
  | none => rfl
  | some a =>
    simp only [Agent.Fatalf]
    split <;> first | rfl | (split <;> rfl)

theorem warning_fst (da : Option Agent) (e : Option String) :
    (Agent.Warning da e).1 = e := by
  cases e with
  | none => rfl
  | some msg =>
    cases da with
    | none => rfl
    | some a =>
      simp only [Agent.Warning]
      split <;> first | rfl | (split <;> rfl)

theorem error_fst (da : Option Agent) (e : Option String) :
    (Agent.Error da e).1 = e := by
  cases e with
  | none => rfl
  | some msg =>
    cases da with
    | none => rfl
    | some a =>
      simp only [Agent.Error]
      split <;> first | rfl | (split <;> rfl)

theorem fatal_fst (da : Option Agent) (e : Option String) :
    (Agent.Fatal da e).1 = e := by
  cases e with
  | none => rfl
  | some msg =>
    cases da with
    | none => rfl
    | some a =>
      simp only [Agent.Fatal]
      split <;> first | rfl | (split <;> rfl)

/-- C5: passing a nil error to `Warning`, `WarningWithReq`, `Error`,
`ErrorWithReq`, `Fatal` or `FatalWithReq` enqueues no task, leaves the
agent (any agent, including the nil one) unchanged, and returns nil. -/
theorem C5_nil_error_is_noop (da : Option Agent) (req : HTTPRequest) :
    Agent.Warning da none = (none, da) ∧
    Agent.WarningWithReq da none req = (none, da) ∧
    Agent.Error da none = (none, da) ∧
    Agent.ErrorWithReq da none req = (none, da) ∧
    Agent.Fatal da none = (none, da) ∧
    Agent.FatalWithReq da none req = (none, da) :=
  ⟨rfl, rfl, rfl, rfl, rfl, rfl⟩

/-- C6: `Warningf`, `Errorf` and `Fatalf` always return the non-nil
error built by formatting the arguments into the format string — the
same value whatever the agent's flag and listener state (the statement
holds for every `da`, nil included) — and `Warning`, `Error` and `Fatal`
return exactly the error value they were passed. -/
theorem C6_error_return_values (da : Option Agent) (format : String)
    (args : List StateVal) (e : Option String) :
    (Agent.Warningf da format args).1 = some (sprintf format args) ∧
    (Agent.Errorf da format args).1 = some (sprintf format args) ∧
    (Agent.Fatalf da format args).1 = some (sprintf format args) ∧
    (Agent.Warning da e).1 = e ∧
    (Agent.Error da e).1 = e ∧
    (Agent.Fatal da e).1 = e :=
  ⟨warningf_fst da format args, errorf_fst da format args, fatalf_fst da format args,
    warning_fst da e, error_fst da e, fatal_fst da e⟩

/-- C6 witness: the returned error at a concrete input. -/
theorem C6_error_return_values_witness :
    (Agent.Errorf none "x=%d" [.int 3]).1 = some "x=3" :=
  (C6_error_return_values none "x=%d" [.int 3] none).2.1

theorem queueWrite_empty_format (a : Agent) (flag : EventFlag)
    (color : AnsiColorCode) (args : List StateVal) :
    Agent.queueWrite a flag color "" args = a := rfl

theorem queueWriteError_empty_format (a : Agent) (flag : EventFlag)
    (color : AnsiColorCode) (args : List StateVal) :
    Agent.queueWriteError a flag color "" args = a := rfl

theorem filter_write_enqueue_trigger (q : Queue) (args : List StateVal) :
    ((q.Enqueue (.trigger args)).pending.filter Task.isWriteTask)
      = q.pending.filter Task.isWriteTask := by
  unfold Queue.Enqueue
  split
  · rfl
  · simp [List.filter_append, Task.isWriteTask]

theorem writeTasks_infof_empty (da : Option Agent) (args : List StateVal) :
    writeTasks (Agent.Infof da "" args) = writeTasks da := by
  cases da with
  | none => rfl
  | some a =>
    simp only [Agent.Infof, queueWrite_empty_format]
    split
    · split
      · simp only [writeTasks, filter_write_enqueue_trigger]
      · rfl
    · rfl

theorem writeTasks_debugf_empty (da : Option Agent) (args : List StateVal) :
    writeTasks (Agent.Debugf da "" args) = writeTasks da := by
  cases da with
  | none => rfl
  | some a =>
    simp only [Agent.Debugf, queueWrite_empty_format]
    split
    · split
      · simp only [writeTasks, filter_write_enqueue_trigger]
      · rfl
    · rfl

theorem writeTasks_warningf_empty (da : Option Agent) (args : List StateVal) :
    writeTasks (Agent.Warningf da "" args).2 = writeTasks da := by
  cases da with
  | none => rfl
  | some a =>
    simp only [Agent.Warningf, queueWriteError_empty_format]
    split
    · split
      · simp only [writeTasks, filter_write_enqueue_trigger]
      · rfl
    · rfl

theorem writeTasks_errorf_empty (da : Option Agent) (args : List StateVal) :
    writeTasks (Agent.Errorf da "" args).2 = writeTasks da := by
  cases da with
  | none => rfl
  | some a =>
    simp only [Agent.Errorf, queueWriteError_empty_format]
    split
    · split
      · simp only [writeTasks, filter_write_enqueue_trigger]
      · rfl
    · rfl

theorem writeTasks_fatalf_empty (da : Option Agent) (args : List StateVal) :
    writeTasks (Agent.Fatalf da "" args).2 = writeTasks da := by
  cases da with
  | none => rfl
  | some a =>
    simp only [Agent.Fatalf, queueWriteError_empty_format]
    split
    · split
      · simp only [writeTasks, filter_write_enqueue_trigger]
      · rfl
    · rfl

/-- C10: an emission call with an empty format string enqueues no write
task: `queueWrite` and `queueWriteError` are no-ops for the empty format
(they enqueue only when the format is non-empty), so `Infof("")`,
`Debugf("")`, `Warningf("")`, `Errorf("")` and `Fatalf("")` leave the
pending write tasks unchanged and nothing reaches the Writer. -/
theorem C10_empty_format_writes_nothing (da : Option Agent) (a : Agent)
    (flag : EventFlag) (color : AnsiColorCode) (args : List StateVal) :
    Agent.queueWrite a flag color "" args = a ∧
    Agent.queueWriteError a flag color "" args = a ∧
    writeTasks (Agent.Infof da "" args) = writeTasks da ∧
    writeTasks (Agent.Debugf da "" args) = writeTasks da ∧
    writeTasks (Agent.Warningf da "" args).2 = writeTasks da ∧
    writeTasks (Agent.Errorf da "" args).2 = writeTasks da ∧
    writeTasks (Agent.Fatalf da "" args).2 = writeTasks da :=
  ⟨queueWrite_empty_format a flag color args,
    queueWriteError_empty_format a flag color args,
    writeTasks_infof_empty da args, writeTasks_debugf_empty da args,
    writeTasks_warningf_empty da args, writeTasks_errorf_empty da args,
    writeTasks_fatalf_empty da args⟩

/-- C3 counterexample: `EnableEvent` on the nil agent dereferences the
nil receiver (`da.events.Enable`) and panics, so not every Agent method
is nil-receiver-safe. -/
theorem C3_nil_receiver_counterexample :
    Agent.EnableEvent none EventError = GoResult.panic := rfl

/-- C3 amended: the query and emission methods (`IsEnabled`,
`HasListener`, `OnEvent`, `Infof`, `Debugf`, `Warningf`, `Warning`,
`WarningWithReq`, `Errorf`, `Error`, `ErrorWithReq`, `Fatalf`, `Fatal`,
`FatalWithReq`) are nil-receiver-safe no-ops, while `EnableEvent`,
`DisableEvent`, `SetVerbosity`, `AddEventListener`, `RemoveListeners`,
`Close` and `Drain` dereference the nil receiver and panic. -/
theorem C3_nil_receiver_amended (flag : EventFlag) (state : List StateVal)
    (format : String) (args : List StateVal) (e : Option String)
    (req : HTTPRequest) (events : Option EventFlagSet) (l : EventListener) :
    Agent.IsEnabled none flag = false ∧
    Agent.HasListener none flag = false ∧
    Agent.OnEvent none flag state = none ∧
    Agent.Infof none format args = none ∧
    Agent.Debugf none format args = none ∧
    Agent.Warningf none format args = (some (sprintf format args), none) ∧
    Agent.Warning none e = (e, none) ∧
    Agent.WarningWithReq none e req = (e, none) ∧
    Agent.Errorf none format args = (some (sprintf format args), none) ∧
    Agent.Error none e = (e, none) ∧
    Agent.ErrorWithReq none e req = (e, none) ∧
    Agent.Fatalf none format args = (some (sprintf format args), none) ∧
    Agent.Fatal none e = (e, none) ∧
    Agent.FatalWithReq none e req = (e, none) ∧
    Agent.EnableEvent none flag = GoResult.panic ∧
    Agent.DisableEvent none flag = GoResult.panic ∧
    Agent.SetVerbosity none events = GoResult.panic ∧
    Agent.AddEventListener none flag l = GoResult.panic ∧
    Agent.RemoveListeners none flag = GoResult.panic ∧
    Agent.Close none = GoResult.panic ∧
    Agent.Drain none = GoResult.panic := by
  refine ⟨rfl, rfl, rfl, rfl, rfl, rfl, ?_, ?_, rfl, ?_, ?_, rfl, ?_, ?_,
    rfl, rfl, rfl, rfl, rfl, rfl, rfl⟩ <;> cases e <;> rfl

/-- C4: the registry lock discipline of the source, step by step:
`AddEventListener` mutates under the lock and `triggerListeners` reads
its dispatch snapshot under the lock, but `RemoveListeners` deletes the
kind's registry entry without taking `eventListenersLock` — the claim's
"every operation that mutates the listener registry holds the lock"
fails on `RemoveListeners`. -/
theorem C4_registry_lock_discipline :
    registryLockDisciplined addEventListenerRegistrySteps = true ∧
    registryLockDisciplined triggerListenersRegistrySteps = true ∧
    registryLockDisciplined removeListenersRegistrySteps = false :=
  ⟨rfl, rfl, rfl⟩

/-- C2: the error-only, request-start and byte-slice adapters silently
drop mismatched or missing arguments, but the request-complete adapter
(`NewRequestListener`) guards only `len(state) < 3` while also reading
`state[3]`: on a three-element tuple whose first three arguments decode
(request, status code, content length — the elapsed duration missing) it
indexes out of range and panics instead of dropping the call. -/
theorem C2_request_adapter_panics_on_missing_arg :
    NewRequestListener [.request sampleRequest, .int 200, .int 512]
      = AdapterOutcome.panicked ∧
    NewRequestListener [.request sampleRequest, .int 200] = AdapterOutcome.dropped ∧
    NewRequestListener [.int 1, .int 200, .int 512, .duration 9]
      = AdapterOutcome.dropped ∧
    NewErrorListener [.int 3] = AdapterOutcome.dropped ∧
    NewErrorListener [] = AdapterOutcome.dropped ∧
    NewRequestStartListener [.err "x"] = AdapterOutcome.dropped ∧
    NewRequestBodyListener [.int 3] = AdapterOutcome.dropped ∧
    NewResponseListener [.int 3] = AdapterOutcome.dropped :=
  ⟨rfl, rfl, rfl, rfl, rfl, rfl, rfl, rfl⟩

theorem onEvent_enqueues (a : Agent) (flag : EventFlag) (state : List StateVal)
    (hopen : a.eventQueue.closed = false)
    (h1 : Agent.IsEnabled (some a) flag = true)
    (h2 : Agent.HasListener (some a) flag = true) :
    Agent.OnEvent (some a) flag state = some { a with eventQueue :=
      { a.eventQueue with pending := a.eventQueue.pending
          ++ [Task.trigger ([.timeSource a.clock, .eventFlag flag] ++ state)] } } := by
  simp [Agent.OnEvent, h1, h2, Queue.Enqueue, hopen]

theorem onEvent_noop (a : Agent) (flag : EventFlag) (state : List StateVal)
    (h : Agent.IsEnabled (some a) flag = false ∨ Agent.HasListener (some a) flag = false) :
    Agent.OnEvent (some a) flag state = some a := by
  rcases h with h | h <;> simp [Agent.OnEvent, h]

/-- An agent with the error kind enabled, one error listener, and a
dispatch queue that has already been closed. -/
def closedQueueAgent : Agent :=
  { writer := 0,
    events := some (EventFlagSet.NewEventFlagSetWithEvents [EventError]),
    eventListeners := [(EventError, [EventListener.errorListener 0])],
    eventQueue := { pending := [], executed := [], closed := true },
    clock := 5 }

/-- C7 counterexample: on an agent whose queue has been closed, the kind
is enabled and has a listener, yet `OnEvent` enqueues nothing (`Enqueue`
fails with `ErrClosed`, which `OnEvent` discards): the pending list is
still empty afterwards. -/
theorem C7_closed_queue_counterexample :
    Agent.IsEnabled (some closedQueueAgent) EventError = true ∧
    Agent.HasListener (some closedQueueAgent) EventError = true ∧
    Agent.OnEvent (some closedQueueAgent) EventError [.err "x"]
      = some closedQueueAgent ∧
    closedQueueAgent.eventQueue.pending = [] :=
  ⟨rfl, rfl, rfl, rfl⟩

/-- C7 amended: when the kind is enabled, has a listener, and the
dispatch queue has not been closed, `OnEvent` enqueues exactly one
listener-trigger task capturing the logical timestamp as argument zero,
the kind as argument one and the state following; when the kind is
disabled or has no listener it enqueues nothing and changes no state. -/
theorem C7_onEvent_amended (a : Agent) (flag : EventFlag) (state : List StateVal)
    (hopen : a.eventQueue.closed = false) :
    (Agent.IsEnabled (some a) flag = true → Agent.HasListener (some a) flag = true →
      Agent.OnEvent (some a) flag state = some { a with eventQueue :=
        { a.eventQueue with pending := a.eventQueue.pending
            ++ [Task.trigger ([.timeSource a.clock, .eventFlag flag] ++ state)] } }) ∧
    ((Agent.IsEnabled (some a) flag = false ∨ Agent.HasListener (some a) flag = false) →
      Agent.OnEvent (some a) flag state = some a) :=
  ⟨fun h1 h2 => onEvent_enqueues a flag state hopen h1 h2,
    fun h => onEvent_noop a flag state h⟩

/-- An open-queue agent with the error kind enabled and a single
error-listener adapter registered for it. -/
def scenarioAgent : Agent :=
  { writer := 7,
    events := some (EventFlagSet.NewEventFlagSetWithEvents [EventError]),
    eventListeners := [(EventError, [EventListener.errorListener 3])],
    eventQueue := { pending := [], executed := [], closed := false },
    clock := 11 }

/-- C7 witness: the amended statement at a concrete open-queue agent. -/
theorem C7_onEvent_amended_witness :
    Agent.OnEvent (some scenarioAgent) EventError [.err "boom"]
      = some { scenarioAgent with eventQueue :=
        { scenarioAgent.eventQueue with pending :=
            [Task.trigger [.timeSource 11, .eventFlag EventError, .err "boom"]] } } :=
  (C7_onEvent_amended scenarioAgent EventError [.err "boom"] rfl).1 rfl rfl

/-- The agent `Drain` leaves behind: verbosity "none", every previously
pending task executed, queue empty and closed. -/
def drainedAgent (a : Agent) : Agent :=
  { a with events := some EventFlagSet.NewEventFlagSetNone, eventQueue := { pending := [], executed := a.eventQueue.executed ++ a.eventQueue.pending, closed := true } }

theorem drained_isEnabled_false (a : Agent) (flag : EventFlag) :
    Agent.IsEnabled (some (drainedAgent a)) flag = false := rfl

theorem drain_eq_drainedAgent (a : Agent) :
    Agent.Drain (some a) = GoResult.ok (drainedAgent a) := by
  simp [Agent.Drain, Agent.SetVerbosity, Agent.Close, Queue.runAllPending,
    Queue.Close, drainedAgent, List.append_nil]

/-- C9: `Drain` first sets the flag set to "none", then waits for the
workers to consume the backlog, then closes: afterwards the flag set is
"none", every task that was pending when `Drain` was called has been
executed, the queue is empty and closed, and no emission call on the
drained agent enqueues anything or changes any state. -/
theorem C9_drain_semantics (a : Agent) :
    Agent.Drain (some a) = GoResult.ok (drainedAgent a) ∧
    (drainedAgent a).events = some EventFlagSet.NewEventFlagSetNone ∧
    (drainedAgent a).eventQueue.Len = 0 ∧
    (drainedAgent a).eventQueue.closed = true ∧
    (∀ t ∈ a.eventQueue.pending, t ∈ (drainedAgent a).eventQueue.executed) ∧
    (∀ flag state, Agent.OnEvent (some (drainedAgent a)) flag state
      = some (drainedAgent a)) ∧
    (∀ format args, Agent.Infof (some (drainedAgent a)) format args
      = some (drainedAgent a)) ∧
    (∀ format args, Agent.Debugf (some (drainedAgent a)) format args
      = some (drainedAgent a)) ∧
    (∀ format args, (Agent.Warningf (some (drainedAgent a)) format args).2
      = some (drainedAgent a)) ∧
    (∀ format args, (Agent.Errorf (some (drainedAgent a)) format args).2
      = some (drainedAgent a)) ∧
    (∀ format args, (Agent.Fatalf (some (drainedAgent a)) format args).2
      = some (drainedAgent a)) ∧
    (∀ e, (Agent.Warning (some (drainedAgent a)) e).2 = some (drainedAgent a)) ∧
    (∀ e req, (Agent.WarningWithReq (some (drainedAgent a)) e req).2
      = some (drainedAgent a)) ∧
    (∀ e, (Agent.Error (some (drainedAgent a)) e).2 = some (drainedAgent a)) ∧
    (∀ e req, (Agent.ErrorWithReq (some (drainedAgent a)) e req).2
      = some (drainedAgent a)) ∧
    (∀ e, (Agent.Fatal (some (drainedAgent a)) e).2 = some (drainedAgent a)) ∧
    (∀ e req, (Agent.FatalWithReq (some (drainedAgent a)) e req).2
      = some (drainedAgent a)) := by
  refine ⟨drain_eq_drainedAgent a, rfl, rfl, rfl, ?_, ?_, ?_, ?_, ?_, ?_, ?_,
    ?_, ?_, ?_, ?_, ?_, ?_⟩
  · intro t ht
    simp [drainedAgent, ht]
  · intro flag state
    exact onEvent_noop (drainedAgent a) flag state (Or.inl (drained_isEnabled_false a flag))
  · intro format args
    simp [Agent.Infof, drained_isEnabled_false]
  · intro format args
    simp [Agent.Debugf, drained_isEnabled_false]
  · intro format args
    simp [Agent.Warningf, drained_isEnabled_false]
  · intro format args
    simp [Agent.Errorf, drained_isEnabled_false]
  · intro format args
    simp [Agent.Fatalf, drained_isEnabled_false]
  · intro e
    cases e <;> simp [Agent.Warning, drained_isEnabled_false]
  · intro e req
    cases e <;> simp [Agent.WarningWithReq, drained_isEnabled_false]
  · intro e
    cases e <;> simp [Agent.Error, drained_isEnabled_false]
  · intro e req
    cases e <;> simp [Agent.ErrorWithReq, drained_isEnabled_false]
  · intro e
    cases e <;> simp [Agent.Fatal, drained_isEnabled_false]
  · intro e req
    cases e <;> simp [Agent.FatalWithReq, drained_isEnabled_false]

/-- C1: on any open-queue agent with the error kind enabled and exactly
one error-listener adapter registered for it, `Errorf("boom")` returns
the error with message "boom" and enqueues a write task followed by one
listener-trigger task; executing that trigger task decodes the tuple and
invokes the wrapped callback exactly once, with the writer, the captured
timestamp, and the decoded error whose message is "boom". -/
theorem C1_errorf_boom_scenario (a : Agent) (i : Nat)
    (hopen : a.eventQueue.closed = false)
    (hen : Agent.IsEnabled (some a) EventError = true)
    (hlis : lookupListeners a.eventListeners EventError
      = [EventListener.errorListener i]) :
    Agent.Errorf (some a) "boom" []
      = (some "boom", some { a with eventQueue := { a.eventQueue with pending := a.eventQueue.pending ++ [Task.writeError [.timeSource a.clock, .eventFlag EventError, .color ColorRed, .str "boom"], Task.trigger [.timeSource a.clock, .eventFlag EventError, .err "boom"]] } }) ∧
    Agent.triggerListeners a
        [.timeSource a.clock, .eventFlag EventError, .err "boom"]
      = GoResult.ok (none, [Invocation.errorCb i a.writer a.clock "boom"]) := by
  constructor
  · simp only [Agent.Errorf, Agent.queueWriteError, Agent.HasListener, Queue.Enqueue,
      hopen, hen, hlis]
    simp +decide [hlis, List.append_assoc]
  · simp only [Agent.triggerListeners]
    simp +decide [stateAsTimeSource, stateAsEventFlag, hlis, Agent.runListeners,
      invokeListener, NewErrorListener]

/-- C1 witness: the scenario at a concrete agent. -/
theorem C1_errorf_boom_scenario_witness :
    Agent.Errorf (some scenarioAgent) "boom" []
      = (some "boom", some { scenarioAgent with eventQueue := { pending := [Task.writeError [.timeSource 11, .eventFlag EventError, .color ColorRed, .str "boom"], Task.trigger [.timeSource 11, .eventFlag EventError, .err "boom"]], executed := [], closed := false } }) ∧
    Agent.triggerListeners scenarioAgent
        [.timeSource 11, .eventFlag EventError, .err "boom"]
      = GoResult.ok (none, [Invocation.errorCb 3 7 11 "boom"]) :=
  C1_errorf_boom_scenario scenarioAgent 3 rfl rfl rfl

/-- The invocations a non-panicking listener run produces. -/
def okInvs : GoResult (List Invocation) → List Invocation
  | .ok invs => invs
  | .panic => []

/-- The concatenated callback invocations of a listener slice, each
listener processed exactly once, in order, on the same
`(writer, ts, flag, state)` tuple. -/
def invocationsOf (writer ts : Nat) (flag : EventFlag) (state : List StateVal) :
    List EventListener → List Invocation
  | [] => []
  | l :: rest => okInvs (invokeListener writer ts flag state l)
      ++ invocationsOf writer ts flag state rest

theorem runListeners_eq_of_no_panic (writer ts : Nat) (flag : EventFlag)
    (state : List StateVal) (ls : List EventListener)
    (h : ∀ l ∈ ls, invokeListener writer ts flag state l ≠ GoResult.panic) :
    Agent.runListeners writer ts flag state ls
      = GoResult.ok (invocationsOf writer ts flag state ls) := by
  induction ls with
  | nil => rfl
  | cons l rest ih =>
    have hl := h l (List.mem_cons_self l rest)
    cases hinv : invokeListener writer ts flag state l with
    | panic => exact absurd hinv hl
    | ok invs =>
      have hrest := ih (fun x hx => h x (List.mem_cons_of_mem l hx))
      simp [Agent.runListeners, hinv, hrest, invocationsOf, okInvs]

/-- An open-queue agent with the request-complete kind enabled and two
listeners registered for it: a request adapter and a generic listener. -/
def panickingListenerAgent : Agent :=
  { writer := 0,
    events := some (EventFlagSet.NewEventFlagSetWithEvents [EventRequestComplete]),
    eventListeners := [(EventRequestComplete,
      [EventListener.requestListener 5, EventListener.generic 7])],
    eventQueue := { pending := [], executed := [], closed := false },
    clock := 2 }

/-- An open-queue agent with the request kind enabled and two generic
listeners registered for it. -/
def genericListenersAgent : Agent :=
  { writer := 4,
    events := some (EventFlagSet.NewEventFlagSetWithEvents [EventRequest]),
    eventListeners := [(EventRequest,
      [EventListener.generic 1, EventListener.generic 2])],
    eventQueue := { pending := [], executed := [], closed := false },
    clock := 9 }

/-- C8 counterexample: with a request-complete adapter and a generic
listener both registered, executing the trigger task that `OnEvent`
enqueues for a three-element state tuple panics inside the first
listener (the adapter's `state[3]` index-out-of-range), so the second
registered listener is never invoked: the dispatch does not invoke each
registered listener exactly once. -/
theorem C8_panicking_listener_counterexample :
    Agent.OnEvent (some panickingListenerAgent) EventRequestComplete
        [.request sampleRequest, .int 200, .int 300]
      = some { panickingListenerAgent with eventQueue := { pending := [Task.trigger [.timeSource 2, .eventFlag EventRequestComplete, .request sampleRequest, .int 200, .int 300]], executed := [], closed := false } } ∧
    Agent.triggerListeners panickingListenerAgent
        [.timeSource 2, .eventFlag EventRequestComplete, .request sampleRequest,
          .int 200, .int 300]
      = GoResult.panic :=
  ⟨rfl, rfl⟩

/-- C8 amended: provided no registered listener panics on the tuple (the
request adapter can, via its missing-argument bug), executing the
listener-trigger task that `OnEvent` enqueues decodes the captured
timestamp and kind back, and invokes each listener registered for the
kind exactly once, in registration order of the snapshot, passing the
writer, the captured timestamp, the kind, and exactly the original state
values. -/
theorem C8_trigger_round_trip (a : Agent) (flag : EventFlag) (state : List StateVal)
    (hopen : a.eventQueue.closed = false)
    (hen : Agent.IsEnabled (some a) flag = true)
    (hlis : Agent.HasListener (some a) flag = true)
    (hnp : ∀ l ∈ lookupListeners a.eventListeners flag,
      invokeListener a.writer a.clock flag state l ≠ GoResult.panic) :
    Agent.OnEvent (some a) flag state = some { a with eventQueue := { a.eventQueue with pending := a.eventQueue.pending ++ [Task.trigger ([.timeSource a.clock, .eventFlag flag] ++ state)] } } ∧
    Agent.triggerListeners a ([.timeSource a.clock, .eventFlag flag] ++ state)
      = GoResult.ok (none, invocationsOf a.writer a.clock flag state
          (lookupListeners a.eventListeners flag)) := by
  refine ⟨onEvent_enqueues a flag state hopen hen hlis, ?_⟩
  have hrun := runListeners_eq_of_no_panic a.writer a.clock flag state
    (lookupListeners a.eventListeners flag) hnp
  simp only [Agent.triggerListeners, List.cons_append, List.nil_append]
  rw [if_neg (by simp)]
  simp [stateAsTimeSource, stateAsEventFlag, List.getD, hrun]

/-- C8 witness: the amended statement at a concrete agent with two
generic listeners registered for the request kind. -/
theorem C8_trigger_round_trip_witness :
    Agent.OnEvent (some genericListenersAgent) EventRequest [.request sampleRequest]
      = some { genericListenersAgent with eventQueue := { pending := [Task.trigger [.timeSource 9, .eventFlag EventRequest, .request sampleRequest]], executed := [], closed := false } } ∧
    Agent.triggerListeners genericListenersAgent
        [.timeSource 9, .eventFlag EventRequest, .request sampleRequest]
      = GoResult.ok (none,
          [Invocation.raw 1 4 9 EventRequest [.request sampleRequest],
            Invocation.raw 2 4 9 EventRequest [.request sampleRequest]]) :=
  C8_trigger_round_trip genericListenersAgent EventRequest [.request sampleRequest]
    rfl rfl rfl (by decide)

end GoLogger
